import Mathlib

/-!
Verification development for the runtime core of the `zest` 2D game engine
(software rasterization context, frame scheduler, presentation layer).

The C sources are shallowly embedded: machine integers become `Nat` (all the
claims under scrutiny concern in-bounds, non-negative quantities; out-of-bounds
coordinates are undefined behaviour at the C level and excluded by explicit
hypotheses), `float`/`double` time values become exact rationals `ℚ`, and the
flat VRAM buffer addressed through the row-pointer table `vram_rows` becomes a
function `Nat → GL_Color` over flat addresses (the row pointer `vram_rows[y]`
plus column `x` is exactly the flat address `y * width + x`).
-/

set_option autoImplicit false

namespace Zest

/-- Model of `GL_Color_t` (libs/gl/common.h): a packed r/g/b/a quadruple.
Components are bytes in C; their numeric range is irrelevant to the claims. -/
structure GL_Color where
  r : Nat
  g : Nat
  b : Nat
  a : Nat
deriving DecidableEq, Repr

/-- Model of `GL_Point_t` (libs/gl/common.h). The C fields are `int`; the
claims only concern in-bounds (hence non-negative) coordinates, so `Nat`. -/
structure GL_Point where
  x : Nat
  y : Nat
deriving DecidableEq, Repr

/-- Model of `GL_Rectangle_t` (libs/gl/common.h). -/
structure GL_Rectangle where
  x : Nat
  y : Nat
  width : Nat
  height : Nat
deriving DecidableEq, Repr

/-- Model of `GL_Palette_t`: the `colors` array, as a total function on
indices (the C array has `GL_MAX_PALETTE_COLORS` entries and is only ever
indexed by a `GL_Pixel_t`, i.e. a byte, so every C access is in range). -/
structure GL_Palette where
  colors : Nat → GL_Color

/-- Model of `GL_Context_t` (gl/context.c): the virtual framebuffer together
with the per-context shifting table, transparency table and palette.
`vram` is the flat color buffer; `vram_rows[y] + x` in C is flat address
`y * width + x` here.  `GL_Bool_t` entries of `transparent` become `Bool`. -/
structure GL_Context where
  width : Nat
  height : Nat
  vram : Nat → GL_Color
  background : Nat
  shifting : Nat → Nat
  transparent : Nat → Bool
  palette : GL_Palette

/-- Model of `GL_Surface_t`: an indexed source image (sprite sheet / atlas).
`data_rows[y] + x` in C is flat address `y * width + x` here. -/
structure GL_Surface where
  width : Nat
  height : Nat
  data : Nat → Nat

/-- Pointwise store into a flat buffer: `buf[a] = c`, everything else kept. -/
def store (v : Nat → GL_Color) (a : Nat) (c : GL_Color) : Nat → GL_Color :=
  fun a' => if a' = a then c else v a'

/-- One pixel of the inner blit loop (gl/context.c lines 116-121): shift the
raw source pixel, skip the write when the shifted index is transparent,
otherwise store the palette color at the destination address. -/
def blitPixel (sh : Nat → Nat) (tr : Nat → Bool) (col : Nat → GL_Color)
    (v : Nat → GL_Color) (da : Nat) (p : Nat) : Nat → GL_Color :=
  let index := sh p
  if tr index then v else store v da (col index)

/-- Inner loop over the `tile.width` columns of one blit row
(gl/context.c lines 115-122): `src` and `dst` advance by one per pixel. -/
def blitRow (sh : Nat → Nat) (tr : Nat → Bool) (col : Nat → GL_Color)
    (src : Nat → Nat) (v : Nat → GL_Color) (sa da : Nat) : Nat → (Nat → GL_Color)
  | 0 => v
  | n + 1 => blitRow sh tr col src (blitPixel sh tr col v da (src sa)) (sa + 1) (da + 1) n

/-- Outer loop over the `tile.height` rows of a blit
(gl/context.c lines 114-125): after each row the source pointer advances by
`src_skip` and the destination pointer by `dst_skip`. -/
def blitRows (sh : Nat → Nat) (tr : Nat → Bool) (col : Nat → GL_Color)
    (src : Nat → Nat) (w srcSkip dstSkip : Nat) (v : Nat → GL_Color) (sa da : Nat) :
    Nat → (Nat → GL_Color)
  | 0 => v
  | n + 1 =>
      blitRows sh tr col src w srcSkip dstSkip
        (blitRow sh tr col src v sa da w) (sa + w + srcSkip) (da + w + dstSkip) n

/-- Model of `GL_context_blit` (gl/context.c lines 98-128).  The starting
source address is `tile.y * surface.width + tile.x` (row pointer plus column),
the starting destination address is `position.y * context.width + position.x`,
and the skips are `surface.width - tile.width` and `context.width - tile.width`
(`size_t` arithmetic; the claims carry `tile.width ≤ width` hypotheses under
which the truncated `Nat` subtraction agrees with C).  The `scale` and
`rotation` parameters are accepted and never read, exactly as in the C body
(clipping, rotation and scaling are a documented TODO). -/
def GL_context_blit (context : GL_Context) (surface : GL_Surface)
    (tile : GL_Rectangle) (position : GL_Point) (scale rotation : ℚ) : GL_Context :=
  let sa := tile.y * surface.width + tile.x
  let da := position.y * context.width + position.x
  let srcSkip := surface.width - tile.width
  let dstSkip := context.width - tile.width
  { context with
      vram := blitRows context.shifting context.transparent context.palette.colors
        surface.data tile.width srcSkip dstSkip context.vram sa da tile.height }

/-- Model of `GL_context_blit_fast` (gl/context.c lines 130-156).  Its body is
verbatim the body of `GL_context_blit` with the `scale`/`rotation` parameters
removed from the signature. -/
def GL_context_blit_fast (context : GL_Context) (surface : GL_Surface)
    (tile : GL_Rectangle) (position : GL_Point) : GL_Context :=
  let sa := tile.y * surface.width + tile.x
  let da := position.y * context.width + position.x
  let srcSkip := surface.width - tile.width
  let dstSkip := context.width - tile.width
  { context with
      vram := blitRows context.shifting context.transparent context.palette.colors
        surface.data tile.width srcSkip dstSkip context.vram sa da tile.height }

/-- Model of `GL_is_visible` (gl/primitive.c lines 27-30): constantly true. -/
def GL_is_visible (gl : GL_Context) (position : GL_Point) : Bool :=
  true

/-- Model of `GL_primitive_point` (gl/primitive.c lines 32-48): shift the
color, bail out if the shifted index is transparent, otherwise write the
palette color at `vram_rows[position.y] + position.x`. -/
def GL_primitive_point (gl : GL_Context) (position : GL_Point) (color : Nat) : GL_Context :=
  if ¬GL_is_visible gl position then gl
  else
    let index := gl.shifting color
    if gl.transparent index then gl
    else
      let rgba := gl.palette.colors index
      { gl with vram := store gl.vram (position.y * gl.width + position.x) rgba }

/-- Loop of `GL_primitive_hline` (gl/primitive.c lines 69-72): `width`
consecutive stores, the destination pointer advancing by one each time. -/
def hlineLoop (c : GL_Color) (v : Nat → GL_Color) (da : Nat) : Nat → (Nat → GL_Color)
  | 0 => v
  | n + 1 => hlineLoop c (store v da c) (da + 1) n

/-- Model of `GL_primitive_hline` (gl/primitive.c lines 55-73). -/
def GL_primitive_hline (gl : GL_Context) (origin : GL_Point) (width : Nat)
    (color : Nat) : GL_Context :=
  if ¬GL_is_visible gl origin then gl
  else
    let index := gl.shifting color
    if gl.transparent index then gl
    else
      let rgba := gl.palette.colors index
      { gl with vram := hlineLoop rgba gl.vram (origin.y * gl.width + origin.x) width }

/-- Loop of `GL_primitive_vline` (gl/primitive.c lines 89-92).  Faithful to
the C: `dst` is recomputed from `vram_rows[origin.y] + origin.x` inside the
loop body on every iteration (the post-increment result is discarded), so
every one of the `height` stores hits the same address. -/
def vlineLoop (c : GL_Color) (da : Nat) (v : Nat → GL_Color) : Nat → (Nat → GL_Color)
  | 0 => v
  | n + 1 => vlineLoop c da (store v da c) n

/-- Model of `GL_primitive_vline` (gl/primitive.c lines 75-93). -/
def GL_primitive_vline (gl : GL_Context) (origin : GL_Point) (height : Nat)
    (color : Nat) : GL_Context :=
  if ¬GL_is_visible gl origin then gl
  else
    let index := gl.shifting color
    if gl.transparent index then gl
    else
      let rgba := gl.palette.colors index
      { gl with vram := vlineLoop rgba (origin.y * gl.width + origin.x) gl.vram height }

/-! ### Frame scheduler (core/engine.c) -/

/-- Model of the fixed-step drain loop of `Engine_run` (core/engine.c lines
247-251): `for (size_t frames = skippable_frames; frames && (lag >= delta_time); --frames)
{ ...; running = running && update(delta_time); lag -= delta_time; }`.
Time values are exact rationals.  Returns the number of fixed updates invoked
together with the remaining lag. -/
def drain (dt : ℚ) : Nat → ℚ → Nat × ℚ
  | 0, lag => (0, lag)
  | frames + 1, lag =>
      if dt ≤ lag then
        let r := drain dt frames (lag - dt)
        (r.1 + 1, r.2)
      else (0, lag)

/-- Model of the per-iteration time bookkeeping of `Engine_run` (core/engine.c
lines 246-258): accumulate the elapsed time into the lag, drain it in fixed
steps bounded by the skip budget, then invoke `render` once with the
interpolation factor `lag / delta_time`.  Returns (number of fixed updates,
remaining lag, interpolation factor passed to render). -/
def engineIteration (dt : ℚ) (skippableFrames : Nat) (lag elapsed : ℚ) :
    Nat × ℚ × ℚ :=
  let lag1 := lag + elapsed
  let r := drain dt skippableFrames lag1
  (r.1, r.2, r.2 / dt)

/-- State of the rolling FPS estimator `_calculate_fps` (core/engine.c lines
73-85): the static circular buffer `samples`, the static cursor `index` and
the static running `sum`.  The buffer size `FPS_AVERAGE_SAMPLES` comes from
the (absent) config header, so it is kept as a parameter `N` of the
operations. -/
structure FpsState where
  samples : Nat → ℚ
  index : Nat
  sum : ℚ

/-- Model of one call to `_calculate_fps` (core/engine.c lines 73-85):
`sum -= samples[index]; sum += elapsed; samples[index] = elapsed;
index = (index + 1) % FPS_AVERAGE_SAMPLES; return FPS_AVERAGE_SAMPLES / sum;`.
Returns the new static state and the returned FPS value. -/
def calculateFps (N : Nat) (s : FpsState) (elapsed : ℚ) : FpsState × ℚ :=
  let sum := s.sum - s.samples s.index + elapsed
  (⟨Function.update s.samples s.index elapsed, (s.index + 1) % N, sum⟩,
   (N : ℚ) / sum)

/-- Iterated feeding of the FPS estimator: the state after `k` consecutive
frames, each reporting the same elapsed time `e`. -/
def feedFps (N : Nat) (e : ℚ) (s : FpsState) : Nat → FpsState
  | 0 => s
  | k + 1 => (calculateFps N (feedFps N e s k) e).1

/-! ### Presentation layer (core/io/display.c) -/

/-- Result of `compute_size` (core/io/display.c lines 109-161), restricted to
the data the geometry claims are about: window width, window height and the
integer scale actually applied.  `none` models the `return false` of the
fit-failure branch. -/
def computeSize (displayWidth displayHeight cw ch cscale : Nat) :
    Option (Nat × Nat × Nat) :=
  let maxScale := min (displayWidth / cw) (displayHeight / ch)
  let scale := if cscale ≠ 0 then cscale else maxScale
  if maxScale = 0 then none
  else if maxScale < scale then some (cw * maxScale, ch * maxScale, maxScale)
  else some (cw * scale, ch * scale, scale)

/-- Size in `GL_Color_t` entries of the true-color conversion buffer allocated
by `Display_initialize` (core/io/display.c line 283):
`malloc(display->configuration.width * display->configuration.width * sizeof(GL_Color_t))`.
Note the C expression multiplies the width by itself. -/
def displayVramEntries (width height : Nat) : Nat :=
  width * width

/-- Which resources acquired by `Display_initialize` are still live (not yet
released) at a given moment: the GLFW library, the window, the GL context
(its VRAM + row table), the true-color conversion buffer, the GPU texture and
the shader programs. -/
structure DisplayResources where
  glfw : Bool
  window : Bool
  gl : Bool
  vram : Bool
  texture : Bool
  programs : Bool
deriving DecidableEq, Repr

/-- Outcome of each fallible step performed by `Display_initialize`
(core/io/display.c lines 201-340): `glfwInit`, `glfwCreateWindow`,
`gladLoadGLLoader`, `GL_context_create`, the `malloc` of the conversion
buffer, `glGenTextures`, and the pass-through shader build. -/
structure DisplayInitOutcome where
  glfwOk : Bool
  windowOk : Bool
  gladOk : Bool
  glOk : Bool
  vramOk : Bool
  textureOk : Bool
  shadersOk : Bool
deriving DecidableEq, Repr

/-- Model of `Display_initialize` (core/io/display.c lines 201-340) as a
resource-accounting state machine: it follows the C control flow branch by
branch, acquiring and releasing the resources exactly where the C does, and
returns the C result (`true`/`false`) together with the resources still live
on exit.  Two branches are modelled exactly as written in the C source:
the `compute_size` failure branch (lines 269-273) destroys the window and
terminates GLFW but does not call `GL_context_delete`, and the conversion
buffer allocation failure branch (lines 283-289) releases the GL context, the
window and GLFW but contains no `return` statement, so control falls through
to the texture and shader steps. -/
def Display_initialize_model (o : DisplayInitOutcome) (displayWidth displayHeight : Nat)
    (cw ch cscale : Nat) : Bool × DisplayResources :=
  if ¬o.glfwOk then
    (false, ⟨false, false, false, false, false, false⟩)
  else if ¬o.windowOk then
    -- glfwTerminate
    (false, ⟨false, false, false, false, false, false⟩)
  else if ¬o.gladOk then
    -- glfwDestroyWindow; glfwTerminate
    (false, ⟨false, false, false, false, false, false⟩)
  else if ¬o.glOk then
    -- glfwDestroyWindow; glfwTerminate
    (false, ⟨false, false, false, false, false, false⟩)
  else if (computeSize displayWidth displayHeight cw ch cscale).isNone then
    -- glfwDestroyWindow; glfwTerminate -- the GL context is not deleted here
    (false, ⟨false, false, true, false, false, false⟩)
  else
    -- the conversion-buffer malloc (line 283); on failure the branch frees
    -- the GL context, destroys the window and terminates GLFW, but has no
    -- return statement, so execution continues below either way
    let afterVram : DisplayResources :=
      if ¬o.vramOk then ⟨false, false, false, false, false, false⟩
      else ⟨true, true, true, true, false, false⟩
    if ¬o.textureOk then
      -- free(vram); GL_context_delete; glfwDestroyWindow; glfwTerminate
      (false, ⟨false, false, false, false, false, false⟩)
    else if ¬o.shadersOk then
      -- program_delete*; glDeleteBuffers(texture); free(vram);
      -- GL_context_delete; glfwDestroyWindow; glfwTerminate
      (false, ⟨false, false, false, false, false, false⟩)
    else
      (true, { afterVram with texture := true, programs := true })

/-- Which resources acquired by `Engine_initialize` are still live:
the file system (I/O root), the display, the input subsystem, the audio
subsystem and the interpreter. -/
structure EngineResources where
  fs : Bool
  display : Bool
  input : Bool
  audio : Bool
  interp : Bool
deriving DecidableEq, Repr

/-- Outcome of each fallible step of `Engine_initialize`
(core/engine.c lines 106-196). -/
structure EngineInitOutcome where
  fsOk : Bool
  displayOk : Bool
  inputOk : Bool
  audioOk : Bool
  interpOk : Bool
deriving DecidableEq, Repr

/-- Model of `Engine_initialize` (core/engine.c lines 106-196) as a
resource-accounting state machine mirroring the C unwind chains: on each
failing step the C releases, in reverse order, every subsystem acquired so
far and returns `false`. -/
def Engine_initialize_model (o : EngineInitOutcome) : Bool × EngineResources :=
  if ¬o.fsOk then
    (false, ⟨false, false, false, false, false⟩)
  else if ¬o.displayOk then
    -- FS_terminate
    (false, ⟨false, false, false, false, false⟩)
  else if ¬o.inputOk then
    -- Display_terminate; FS_terminate
    (false, ⟨false, false, false, false, false⟩)
  else if ¬o.audioOk then
    -- Input_terminate; Display_terminate; FS_terminate
    (false, ⟨false, false, false, false, false⟩)
  else if ¬o.interpOk then
    -- Audio_terminate; Input_terminate; Display_terminate; FS_terminate
    (false, ⟨false, false, false, false, false⟩)
  else
    (true, ⟨true, true, true, true, true⟩)

/-! ### Shader swapping (core/io/display.c, `Display_shader`) -/

/-- The two shader program slots of the display
(`display->programs[DISPLAY_PROGRAM_PASSTHRU]` and `...[DISPLAY_PROGRAM_CUSTOM]`). -/
inductive ShaderSlot where
  | passthru
  | custom
deriving DecidableEq, Repr

/-- Shader-related display state for `Display_shader`: whether each program
slot currently holds a live (created, linked) program, which slot
`display->active_program` points to, and running counters of `program_create`
and `program_delete` calls (to make "no resource churn" statable). -/
structure ShaderState where
  passthruLive : Bool
  customLive : Bool
  active : ShaderSlot
  creations : Nat
  deletions : Nat
deriving DecidableEq, Repr

/-- Whether the program `display->active_program` points to is currently a
live (usable) program. -/
def ShaderState.activeLive (s : ShaderState) : Bool :=
  match s.active with
  | ShaderSlot.passthru => s.passthruLive
  | ShaderSlot.custom => s.customLive

/-- Model of `Display_shader` (core/io/display.c lines 403-452).  The
argument `effect` is `none` for the C `NULL` effect; `some ok` carries the
outcome of the `program_create && program_attach(vertex) && program_attach(fragment)`
chain for the custom shader source (`ok = false` models a source that fails
to compile or link).  Following the C control flow:

* if the active program is not the pass-through one, it is deleted first;
* otherwise, if `effect` is `NULL`, the call logs and returns immediately;
* the `NULL` branch then deletes the custom slot and activates pass-through;
* the custom branch rebuilds the custom slot; on success it becomes active,
  on failure the slot is deleted again and `active_program` is left as it
  (now) stands, with only a warning logged. -/
def Display_shader (s : ShaderState) (effect : Option Bool) : ShaderState :=
  let isPassthru := s.active = ShaderSlot.passthru
  if ¬isPassthru then
    -- program_delete(display->active_program): the active (custom) program dies
    let s1 : ShaderState :=
      { s with customLive := false, deletions := s.deletions + 1 }
    match effect with
    | none =>
        -- load pass-thru: program_delete(custom slot) again, then activate it
        { s1 with
            customLive := false
            deletions := s1.deletions + 1
            active := ShaderSlot.passthru }
    | some ok =>
        if ok then
          { s1 with
              customLive := true
              creations := s1.creations + 1
              active := ShaderSlot.custom }
        else
          -- program_delete(custom slot); active_program is left untouched,
          -- still pointing at the (deleted) custom slot
          { s1 with
              customLive := false
              creations := s1.creations + 1
              deletions := s1.deletions + 1 }
  else
    match effect with
    | none => s -- pass-thru already active: bail out, nothing happens
    | some ok =>
        if ok then
          { s with
              customLive := true
              creations := s.creations + 1
              active := ShaderSlot.custom }
        else
          { s with
              customLive := false
              creations := s.creations + 1
              deletions := s.deletions + 1 }

/-! ### Concrete fixtures (used by witnesses and counterexamples) -/

/-- A small concrete palette: entry `n` holds the color `⟨n, 0, 0, 0⟩`. -/
def exPalette : GL_Palette :=
  ⟨fun n => ⟨n, 0, 0, 0⟩⟩

/-- A concrete 4×4 context with identity shifting, index 0 transparent and
every VRAM cell holding `⟨9, 9, 9, 9⟩`. -/
def exContext : GL_Context where
  width := 4
  height := 4
  vram := fun _ => ⟨9, 9, 9, 9⟩
  background := 0
  shifting := fun n => n
  transparent := fun n => n == 0
  palette := exPalette

/-- A concrete 2×2 source surface whose pixel at flat address `a` is `a + 1`
(hence never the transparent index 0). -/
def exSurface : GL_Surface :=
  ⟨2, 2, fun a => a + 1⟩

/-- A concrete 1-wide, 4-high context (flat address of row `y` is just `y`),
with nothing transparent, for exercising the vertical-line primitive. -/
def exTallContext : GL_Context where
  width := 1
  height := 4
  vram := fun _ => ⟨9, 9, 9, 9⟩
  background := 0
  shifting := fun n => n
  transparent := fun _ => false
  palette := exPalette

/-- A concrete FPS-estimator state: all samples zero, cursor at slot 0,
running sum zero (the initial state of the C statics). -/
def exFps : FpsState :=
  ⟨fun _ => 0, 0, 0⟩

/-- A concrete shader state in which the custom program is live and active. -/
def exShaderCustom : ShaderState :=
  ⟨true, true, ShaderSlot.custom, 0, 0⟩

/-- A concrete shader state in which the pass-through program is live and
active and the custom slot is empty. -/
def exShaderPassthru : ShaderState :=
  ⟨true, false, ShaderSlot.passthru, 0, 0⟩

/-! ## Theorems -/

/-! ### Pointwise characterization of the blit loops -/

theorem store_self (v : Nat → GL_Color) (a : Nat) (c : GL_Color) :
    store v a c a = c := by
  simp [store]

theorem store_other (v : Nat → GL_Color) (a : Nat) (c : GL_Color) (a' : Nat)
    (h : a' ≠ a) : store v a c a' = v a' := by
  simp [store, h]

theorem blitPixel_other (sh : Nat → Nat) (tr : Nat → Bool) (col : Nat → GL_Color)
    (v : Nat → GL_Color) (da p a : Nat) (h : a ≠ da) :
    blitPixel sh tr col v da p a = v a := by
  unfold blitPixel
  by_cases htr : tr (sh p) <;> simp [htr, store, h]

theorem blitRow_out (sh : Nat → Nat) (tr : Nat → Bool) (col : Nat → GL_Color)
    (src : Nat → Nat) :
    ∀ (n : Nat) (v : Nat → GL_Color) (sa da a : Nat),
      a < da ∨ da + n ≤ a →
      blitRow sh tr col src v sa da n a = v a := by
  intro n
  induction n with
  | zero => intro v sa da a _; rfl
  | succ n ih =>
      intro v sa da a h
      rw [blitRow, ih _ _ _ _ (by omega)]
      exact blitPixel_other sh tr col v da (src sa) a (by omega)

theorem blitRow_in (sh : Nat → Nat) (tr : Nat → Bool) (col : Nat → GL_Color)
    (src : Nat → Nat) :
    ∀ (n : Nat) (v : Nat → GL_Color) (sa da j : Nat), j < n →
      blitRow sh tr col src v sa da n (da + j) =
        (if tr (sh (src (sa + j))) then v (da + j) else col (sh (src (sa + j)))) := by
  intro n
  induction n with
  | zero => intro v sa da j h; omega
  | succ n ih =>
      intro v sa da j h
      match j with
      | 0 =>
          rw [blitRow, blitRow_out sh tr col src n _ _ _ _ (by omega)]
          unfold blitPixel
          by_cases htr : tr (sh (src sa)) <;> simp [htr, store]
      | j' + 1 =>
          rw [blitRow]
          have h1 : da + (j' + 1) = (da + 1) + j' := by omega
          have h2 : sa + (j' + 1) = (sa + 1) + j' := by omega
          rw [h1, h2, ih _ _ _ _ (by omega),
            blitPixel_other sh tr col v da (src sa) ((da + 1) + j') (by omega)]

theorem blitRows_low (sh : Nat → Nat) (tr : Nat → Bool) (col : Nat → GL_Color)
    (src : Nat → Nat) (w srcSkip dstSkip : Nat) :
    ∀ (h : Nat) (v : Nat → GL_Color) (sa da a : Nat), a < da →
      blitRows sh tr col src w srcSkip dstSkip v sa da h a = v a := by
  intro h
  induction h with
  | zero => intro v sa da a _; rfl
  | succ h ih =>
      intro v sa da a ha
      rw [blitRows, ih _ _ _ _ (by omega)]
      exact blitRow_out sh tr col src w v sa da a (Or.inl ha)

theorem blitRows_in (sh : Nat → Nat) (tr : Nat → Bool) (col : Nat → GL_Color)
    (src : Nat → Nat) (w srcSkip dstSkip : Nat) :
    ∀ (h : Nat) (v : Nat → GL_Color) (sa da i j : Nat), i < h → j < w →
      blitRows sh tr col src w srcSkip dstSkip v sa da h
          (da + i * (w + dstSkip) + j) =
        (if tr (sh (src (sa + i * (w + srcSkip) + j)))
          then v (da + i * (w + dstSkip) + j)
          else col (sh (src (sa + i * (w + srcSkip) + j)))) := by
  intro h
  induction h with
  | zero => intro v sa da i j hi _; omega
  | succ h ih =>
      intro v sa da i j hi hj
      match i with
      | 0 =>
          rw [blitRows]
          simp only [Nat.zero_mul, Nat.add_zero]
          rw [blitRows_low sh tr col src w srcSkip dstSkip h _ _ _ _ (by omega)]
          exact blitRow_in sh tr col src w v sa da j hj
      | i' + 1 =>
          rw [blitRows]
          have hda : da + (i' + 1) * (w + dstSkip) + j
              = (da + w + dstSkip) + i' * (w + dstSkip) + j := by ring
          have hsa : sa + (i' + 1) * (w + srcSkip) + j
              = (sa + w + srcSkip) + i' * (w + srcSkip) + j := by ring
          rw [hda, hsa, ih _ _ _ _ _ (by omega) hj]
          rw [blitRow_out sh tr col src w v sa da _ (Or.inr (by omega))]

/-! ### C1: shifting → transparency → palette resolution order -/

/-- C1.  For every drawing or blit operation (`GL_context_blit`,
`GL_context_blit_fast`, `GL_primitive_point`) writing a pixel with raw value
`P`, given shifting table `S`, transparency table `T` and palette `C`, the
color written to the destination framebuffer cell is `C[S[P]]` when `T[S[P]]`
is false; when `T[S[P]]` is true the destination cell is left unchanged.
For the blits, the destination cell of tile pixel `(i, j)` (flat address
`position.y * width + position.x + i * width + j`) receives the resolved
color of source pixel `P = surface.data[(tile.y + i) * surface.width +
tile.x + j]` exactly when `T[S[P]]` is false, and keeps its previous content
otherwise; for the point primitive the target cell behaves the same way and,
in the transparent case, the whole context is returned unchanged. -/
theorem C1_shift_transparency_palette_order
    (context : GL_Context) (surface : GL_Surface) (tile : GL_Rectangle)
    (position : GL_Point) (scale rotation : ℚ)
    (gl : GL_Context) (p : GL_Point) (c : Nat) (i j : Nat)
    (hws : tile.width ≤ surface.width) (hwc : tile.width ≤ context.width)
    (hi : i < tile.height) (hj : j < tile.width) :
    ((GL_context_blit context surface tile position scale rotation).vram
        (position.y * context.width + position.x + i * context.width + j) =
      (if context.transparent (context.shifting (surface.data
            (tile.y * surface.width + tile.x + i * surface.width + j)))
        then context.vram
            (position.y * context.width + position.x + i * context.width + j)
        else context.palette.colors (context.shifting (surface.data
            (tile.y * surface.width + tile.x + i * surface.width + j)))))
    ∧ ((GL_context_blit_fast context surface tile position).vram
        (position.y * context.width + position.x + i * context.width + j) =
      (if context.transparent (context.shifting (surface.data
            (tile.y * surface.width + tile.x + i * surface.width + j)))
        then context.vram
            (position.y * context.width + position.x + i * context.width + j)
        else context.palette.colors (context.shifting (surface.data
            (tile.y * surface.width + tile.x + i * surface.width + j)))))
    ∧ (gl.transparent (gl.shifting c) = true → GL_primitive_point gl p c = gl)
    ∧ (gl.transparent (gl.shifting c) = false →
        (GL_primitive_point gl p c).vram (p.y * gl.width + p.x) =
            gl.palette.colors (gl.shifting c)
        ∧ ∀ a, a ≠ p.y * gl.width + p.x →
            (GL_primitive_point gl p c).vram a = gl.vram a) := by
  have key := blitRows_in context.shifting context.transparent
    context.palette.colors surface.data tile.width
    (surface.width - tile.width) (context.width - tile.width)
    tile.height context.vram (tile.y * surface.width + tile.x)
    (position.y * context.width + position.x) i j hi hj
  have e1 : tile.width + (context.width - tile.width) = context.width := by omega
  have e2 : tile.width + (surface.width - tile.width) = surface.width := by omega
  rw [e1, e2] at key
  refine ⟨?_, ?_, ?_, ?_⟩
  · simpa [GL_context_blit] using key
  · simpa [GL_context_blit_fast] using key
  · intro htr
    simp [GL_primitive_point, GL_is_visible, htr]
  · intro htr
    constructor
    · simp [GL_primitive_point, GL_is_visible, htr, store]
    · intro a ha
      simp [GL_primitive_point, GL_is_visible, htr, store, ha]

/-- Witness for C1 at concrete inputs: blitting the 2×2 tile of `exSurface`
to position `(1, 1)` of the 4×4 `exContext` resolves source pixel `1` through
identity shifting and the palette into color `⟨1, 0, 0, 0⟩` at flat address 5,
and the point primitive writes the resolved color for a non-transparent index. -/
theorem C1_shift_transparency_palette_order_witness :
    ((2 ≤ 2 ∧ 2 ≤ 4 ∧ 0 < 2) ∧
      (GL_context_blit exContext exSurface ⟨0, 0, 2, 2⟩ ⟨1, 1⟩ 0 0).vram 5 =
        ⟨1, 0, 0, 0⟩) := by
  refine ⟨by decide, ?_⟩
  have h := (C1_shift_transparency_palette_order exContext exSurface
    ⟨0, 0, 2, 2⟩ ⟨1, 1⟩ 0 0 exContext ⟨0, 0⟩ 1 0 0
    (by decide) (by decide) (by decide) (by decide)).1
  norm_num [exContext, exSurface, exPalette] at h
  convert h using 2

/-! ### C10: the two blit paths coincide -/

/-- C10.  For every context, surface, tile rectangle, destination position and
any scale and rotation arguments, `GL_context_blit` produces exactly the same
context (and in particular the same framebuffer) as `GL_context_blit_fast` on
the same inputs: the two C bodies are verbatim identical and the scale and
rotation parameters are never read. -/
theorem C10_blit_extensionally_equal
    (context : GL_Context) (surface : GL_Surface) (tile : GL_Rectangle)
    (position : GL_Point) (scale rotation : ℚ) :
    GL_context_blit context surface tile position scale rotation =
      GL_context_blit_fast context surface tile position := rfl

/-! ### The fixed-step drain loop -/

theorem drain_eq (d : ℚ) (hd : 0 < d) :
    ∀ (k : Nat) (L : ℚ), 0 ≤ L →
      drain d k L =
        (min k ((L / d).floor.toNat), L - (min k ((L / d).floor.toNat) : Nat) * d) := by
  intro k
  induction k with
  | zero => intro L hL; simp [drain]
  | succ k ih =>
      intro L hL
      by_cases h : d ≤ L
      · have step : drain d (k + 1) L
            = ((drain d k (L - d)).1 + 1, (drain d k (L - d)).2) := by
          rw [drain, if_pos h]
        rw [step, ih (L - d) (by linarith)]
        have hsub : ((L - d) / d).floor = (L / d).floor - 1 := by
          rw [sub_div, div_self hd.ne']
          exact_mod_cast Int.floor_sub_int (L / d) 1
        have hfloor1 : 1 ≤ (L / d).floor := by
          have h1 : (1 : ℚ) ≤ L / d := (one_le_div hd).2 h
          exact Int.le_floor.2 (by exact_mod_cast h1)
        rw [hsub]
        have hmin : min k ((L / d).floor - 1).toNat + 1
            = min (k + 1) ((L / d).floor.toNat) := by omega
        have hc : ((min k (((L / d).floor - 1).toNat) : Nat) : ℚ) + 1
            = ((min (k + 1) ((L / d).floor.toNat) : Nat) : ℚ) := by
          exact_mod_cast congrArg Nat.cast hmin
        refine Prod.ext ?_ ?_
        · simpa using hmin
        · show L - d - (min k (((L / d).floor - 1).toNat) : Nat) * d
              = L - (min (k + 1) ((L / d).floor.toNat) : Nat) * d
          rw [← hc]
          ring
      · have step : drain d (k + 1) L = (0, L) := by
          rw [drain, if_neg h]
        have hfloor0 : (L / d).floor = 0 := by
          refine Int.floor_eq_zero_iff.2 ⟨div_nonneg hL hd.le, ?_⟩
          exact (div_lt_one hd).2 (by linarith)
        rw [step, hfloor0]
        simp

theorem drain_snd_nonneg (d : ℚ) :
    ∀ (k : Nat) (L : ℚ), 0 ≤ L → 0 ≤ (drain d k L).2 := by
  intro k
  induction k with
  | zero => intro L hL; exact hL
  | succ k ih =>
      intro L hL
      rw [drain]
      by_cases h : d ≤ L
      · rw [if_pos h]
        exact ih (L - d) (by linarith)
      · rw [if_neg h]; exact hL

/-! ### C2: fixed-step accumulator and skip-budget clamp -/

/-- Claim C2.  For lag `L` (after adding the elapsed time), fixed delta
`d > 0` and skip budget `k`, the drain loop of `Engine_run` invokes exactly
`min k ⌊L / d⌋` fixed updates and leaves lag `L - min k ⌊L / d⌋ * d`: with a
budget of at least `⌊L / d⌋` the count is `⌊L / d⌋` with final lag
`L - ⌊L / d⌋ * d`, and when the required updates exceed the budget exactly
`k` run and the unconsumed remainder stays in the lag. -/
theorem C2_fixed_step_accumulator (d : ℚ) (k : Nat) (L : ℚ)
    (hd : 0 < d) (hL : 0 ≤ L) :
    (drain d k L).1 = min k ((L / d).floor.toNat) ∧
    (drain d k L).2 = L - (min k ((L / d).floor.toNat) : Nat) * d := by
  rw [drain_eq d hd k L hL]
  exact ⟨rfl, rfl⟩

/-- Witness for C2: lag `7/2` with delta `1` needs `⌊7/2⌋ = 3` updates; a
budget of `2` clamps the count to `2` and retains lag `3/2`. -/
theorem C2_fixed_step_accumulator_witness :
    ((0 : ℚ) < 1 ∧ (0 : ℚ) ≤ 7 / 2) ∧
    (drain 1 2 (7 / 2)).1 = 2 ∧ (drain 1 2 (7 / 2)).2 = 3 / 2 := by
  have hfloor : ((7 : ℚ) / 2 / 1).floor = 3 := by
    show ⌊(7 : ℚ) / 2 / 1⌋ = 3
    rw [show (7 : ℚ) / 2 / 1 = 7 / 2 by norm_num, Int.floor_eq_iff]
    norm_num
  refine ⟨by norm_num, ?_, ?_⟩
  · have h := (C2_fixed_step_accumulator 1 2 (7 / 2) (by norm_num) (by norm_num)).1
    rw [h, hfloor]
    norm_num
  · have h := (C2_fixed_step_accumulator 1 2 (7 / 2) (by norm_num) (by norm_num)).2
    rw [h, hfloor]
    norm_num

/-! ### C7: the interpolation factor passed to render -/

/-- Counterexample to C7 as stated: with fixed delta `1`, skip budget `1`,
lag `0` and elapsed time `3`, the single budgeted update leaves lag `2`, so
the interpolation factor `lag / delta` passed to render is `2`, outside the
claimed range `0..1`. -/
theorem C7_factor_above_one_counterexample :
    (engineIteration 1 1 0 3).2.2 = 2 ∧ ¬((engineIteration 1 1 0 3).2.2 ≤ 1) := by
  norm_num [engineIteration, drain]

/-- Claim C7 as amended.  On an engine-loop iteration (with `running` still
true, so the render call is reached) render receives the interpolation factor
`lag / delta`, computed from the post-drain lag; this factor is always
non-negative, and it is at most `1` whenever the updates required by the
accumulated lag fit inside the skip budget — but when the budget clamps the
drain, the retained lag can exceed one delta and the factor then exceeds `1`. -/
theorem C7_render_factor_amended (d : ℚ) (k : Nat) (lag elapsed : ℚ)
    (hd : 0 < d) (hlag : 0 ≤ lag) (he : 0 ≤ elapsed) :
    (engineIteration d k lag elapsed).2.2 = (drain d k (lag + elapsed)).2 / d
    ∧ 0 ≤ (engineIteration d k lag elapsed).2.2
    ∧ ((((lag + elapsed) / d).floor.toNat ≤ k →
        (engineIteration d k lag elapsed).2.2 ≤ 1)) := by
  have hL : 0 ≤ lag + elapsed := by linarith
  refine ⟨rfl, ?_, ?_⟩
  · exact div_nonneg (drain_snd_nonneg d k (lag + elapsed) hL) hd.le
  · intro hfit
    have heq := (drain_eq d hd k (lag + elapsed) hL)
    have h2 : (engineIteration d k lag elapsed).2.2
        = ((lag + elapsed) - (min k (((lag + elapsed) / d).floor.toNat) : Nat) * d) / d := by
      show (drain d k (lag + elapsed)).2 / d = _
      rw [heq]
    rw [h2, min_eq_right hfit, div_le_one hd]
    have hnn : (0 : ℤ) ≤ ((lag + elapsed) / d).floor :=
      Int.floor_nonneg.2 (div_nonneg hL hd.le)
    have hcast : (((((lag + elapsed) / d).floor.toNat) : Nat) : ℚ)
        = ((((lag + elapsed) / d).floor : ℤ) : ℚ) := by
      exact_mod_cast Int.toNat_of_nonneg hnn
    rw [hcast]
    have hlt : (lag + elapsed) / d
        < ((((lag + elapsed) / d).floor : ℤ) : ℚ) + 1 := Int.lt_floor_add_one _
    have hmul := (div_lt_iff hd).1 hlt
    have hring : (((((lag + elapsed) / d).floor : ℤ) : ℚ) + 1) * d
        = ((((lag + elapsed) / d).floor : ℤ) : ℚ) * d + d := by ring
    linarith [hmul, hring.symm.le]

/-- Witness for the amended C7: with delta `1`, budget `2`, lag `0` and
elapsed `3/2` the one needed update fits the budget, so the factor is inside
`0..1`. -/
theorem C7_render_factor_amended_witness :
    ((0 : ℚ) < 1 ∧ (0 : ℚ) ≤ 0 ∧ (0 : ℚ) ≤ 3 / 2) ∧
    0 ≤ (engineIteration 1 2 0 (3 / 2)).2.2 ∧
    (engineIteration 1 2 0 (3 / 2)).2.2 ≤ 1 := by
  have h := C7_render_factor_amended 1 2 0 (3 / 2) (by norm_num) (by norm_num)
    (by norm_num)
  refine ⟨by norm_num, h.2.1, h.2.2 ?_⟩
  have hfloor : (((0 : ℚ) + 3 / 2) / 1).floor = 1 := by
    show ⌊((0 : ℚ) + 3 / 2) / 1⌋ = 1
    rw [show ((0 : ℚ) + 3 / 2) / 1 = 3 / 2 by norm_num, Int.floor_eq_iff]
    norm_num
  rw [hfloor]
  norm_num

/-! ### C8: the rolling FPS estimator -/

theorem feedFps_index (N : Nat) (hN : 0 < N) (e : ℚ) (s : FpsState)
    (hidx : s.index < N) :
    ∀ k, (feedFps N e s k).index = (s.index + k) % N := by
  intro k
  induction k with
  | zero => exact (Nat.mod_eq_of_lt hidx).symm
  | succ k ih =>
      show ((feedFps N e s k).index + 1) % N = (s.index + (k + 1)) % N
      rw [ih, Nat.add_mod ((s.index + k) % N) 1 N,
        Nat.mod_mod_of_dvd _ dvd_rfl, ← Nat.add_mod]
      rfl

theorem feedFps_samples_written (N : Nat) (hN : 0 < N) (e : ℚ) (s : FpsState)
    (hidx : s.index < N) :
    ∀ (k i : Nat), (∃ t, t < k ∧ (s.index + t) % N = i) →
      (feedFps N e s k).samples i = e := by
  intro k
  induction k with
  | zero => rintro i ⟨t, ht, _⟩; omega
  | succ k ih =>
      rintro i ⟨t, ht, hti⟩
      show Function.update (feedFps N e s k).samples (feedFps N e s k).index e i = e
      rcases eq_or_ne i ((feedFps N e s k).index) with hcase | hcase
      · rw [hcase, Function.update_same]
      · rw [Function.update_noteq hcase]
        refine ih i ⟨t, ?_, hti⟩
        rcases Nat.lt_succ_iff_lt_or_eq.1 ht with hlt | hEq
        · exact hlt
        · exfalso
          exact hcase (by rw [← hti, hEq, feedFps_index N hN e s hidx k])

theorem index_cycle_coverage (N : Nat) (hN : 0 < N) (idx : Nat) (hidx : idx < N)
    (i : Nat) (hi : i < N) :
    ∃ t, t < N ∧ (idx + t) % N = i := by
  refine ⟨(N + i - idx) % N, Nat.mod_lt _ hN, ?_⟩
  rw [Nat.add_mod idx ((N + i - idx) % N) N, Nat.mod_mod_of_dvd _ dvd_rfl,
    ← Nat.add_mod, show idx + (N + i - idx) = N + i by omega,
    Nat.add_mod_left, Nat.mod_eq_of_lt hi]

theorem calculateFps_state_invariant (N : Nat) (hN : 0 < N) (s : FpsState) (e : ℚ)
    (hidx : s.index < N)
    (hsum : s.sum = ∑ i ∈ Finset.range N, s.samples i) :
    (calculateFps N s e).1.index < N ∧
    (calculateFps N s e).1.sum
      = ∑ i ∈ Finset.range N, (calculateFps N s e).1.samples i := by
  refine ⟨Nat.mod_lt _ hN, ?_⟩
  show s.sum - s.samples s.index + e
      = ∑ i ∈ Finset.range N, Function.update s.samples s.index e i
  rw [Finset.sum_update_of_mem (Finset.mem_range.2 hidx), hsum,
    ← Finset.sum_erase_add (Finset.range N) s.samples (Finset.mem_range.2 hidx),
    Finset.sdiff_singleton_eq_erase]
  ring

theorem feedFps_state_invariant (N : Nat) (hN : 0 < N) (e : ℚ) (s : FpsState)
    (hidx : s.index < N)
    (hsum : s.sum = ∑ i ∈ Finset.range N, s.samples i) :
    ∀ k, (feedFps N e s k).index < N ∧
      (feedFps N e s k).sum = ∑ i ∈ Finset.range N, (feedFps N e s k).samples i := by
  intro k
  induction k with
  | zero => exact ⟨hidx, hsum⟩
  | succ k ih =>
      exact calculateFps_state_invariant N hN (feedFps N e s k) e ih.1 ih.2

/-- Claim C8.  Feeding a constant elapsed value `e > 0` to the FPS estimator
for at least `FPS_AVERAGE_SAMPLES = N` consecutive frames — from any prior
estimator state whose cursor is in range and whose running sum matches its
sample buffer, i.e. any state reachable from the zero-initialized statics —
makes the returned FPS exactly `N / (N·e) = 1/e` (time is modelled with exact
rationals, so the floating-point tolerance of the claim becomes equality):
the estimator keeps a circular buffer of the last `N` deltas and returns the
sample count divided by their sum. -/
theorem C8_fps_estimator_converges (N : Nat) (e : ℚ) (s : FpsState) (k : Nat)
    (hN : 0 < N) (he : 0 < e) (hidx : s.index < N)
    (hsum : s.sum = ∑ i ∈ Finset.range N, s.samples i) (hk : N ≤ k + 1) :
    (calculateFps N (feedFps N e s k) e).2 = 1 / e := by
  have h2 : (calculateFps N (feedFps N e s k) e).2
      = (N : ℚ) / (feedFps N e s (k + 1)).sum := rfl
  have hinv := feedFps_state_invariant N hN e s hidx hsum (k + 1)
  have hall : ∀ i ∈ Finset.range N, (feedFps N e s (k + 1)).samples i = e := by
    intro i hi
    obtain ⟨t, htN, hti⟩ :=
      index_cycle_coverage N hN s.index hidx i (Finset.mem_range.1 hi)
    exact feedFps_samples_written N hN e s hidx (k + 1) i ⟨t, by omega, hti⟩
  have hNe : ((N : ℚ)) ≠ 0 := Nat.cast_ne_zero.2 hN.ne'
  rw [h2, hinv.2, Finset.sum_congr rfl hall, Finset.sum_const, Finset.card_range,
    nsmul_eq_mul]
  rw [div_eq_div_iff (mul_ne_zero hNe he.ne') he.ne']
  ring

/-- Witness for C8: with a 2-sample window, feeding `e = 1` starting from the
zero-initialized estimator state makes the second call return exactly `1`. -/
theorem C8_fps_estimator_converges_witness :
    ((0 < 2 ∧ (0 : ℚ) < 1 ∧ exFps.index < 2 ∧
        exFps.sum = ∑ i ∈ Finset.range 2, exFps.samples i ∧ 2 ≤ 1 + 1) ∧
      (calculateFps 2 (feedFps 2 1 exFps 1) 1).2 = 1 / 1) := by
  refine ⟨⟨by norm_num, by norm_num, by norm_num [exFps], ?_, by norm_num⟩, ?_⟩
  · simp [exFps]
  · exact C8_fps_estimator_converges 2 1 exFps 1 (by norm_num) (by norm_num)
      (by norm_num [exFps]) (by simp [exFps]) (by norm_num)

/-! ### C3: window geometry -/

/-- Claim C3.  For canvas size `(cw, ch)` and physical display size
`(dW, dH)`: any successful geometry computation yields a window that never
exceeds the display; a requested scale of `0` (auto) yields the maximum
integer scale fitting the display (with its maximality spelled out); a
requested scale above the maximum is clamped down to the maximum; and when
even scale 1 does not fit, `compute_size` reports failure and
`Display_initialize` returns `false` with no window left alive. -/
theorem C3_window_geometry
    (dW dH cw ch : Nat) (hcw : 0 < cw) (hch : 0 < ch) :
    (∀ cscale ww wh s, computeSize dW dH cw ch cscale = some (ww, wh, s) →
        ww ≤ dW ∧ wh ≤ dH)
    ∧ (cw ≤ dW → ch ≤ dH →
        computeSize dW dH cw ch 0 =
          some (cw * min (dW / cw) (dH / ch), ch * min (dW / cw) (dH / ch),
            min (dW / cw) (dH / ch))
        ∧ cw * min (dW / cw) (dH / ch) ≤ dW
        ∧ ch * min (dW / cw) (dH / ch) ≤ dH
        ∧ ∀ s, cw * s ≤ dW → ch * s ≤ dH → s ≤ min (dW / cw) (dH / ch))
    ∧ (∀ cscale, 0 < min (dW / cw) (dH / ch) → min (dW / cw) (dH / ch) < cscale →
        computeSize dW dH cw ch cscale =
          some (cw * min (dW / cw) (dH / ch), ch * min (dW / cw) (dH / ch),
            min (dW / cw) (dH / ch)))
    ∧ ((dW < cw ∨ dH < ch) → ∀ cscale,
        computeSize dW dH cw ch cscale = none
        ∧ ∀ o : DisplayInitOutcome,
            (Display_initialize_model o dW dH cw ch cscale).1 = false
            ∧ (Display_initialize_model o dW dH cw ch cscale).2.window = false) := by
  have hWfit : cw * min (dW / cw) (dH / ch) ≤ dW := by
    calc cw * min (dW / cw) (dH / ch) ≤ cw * (dW / cw) :=
          Nat.mul_le_mul_left cw (min_le_left _ _)
      _ = dW / cw * cw := Nat.mul_comm _ _
      _ ≤ dW := Nat.div_mul_le_self dW cw
  have hHfit : ch * min (dW / cw) (dH / ch) ≤ dH := by
    calc ch * min (dW / cw) (dH / ch) ≤ ch * (dH / ch) :=
          Nat.mul_le_mul_left ch (min_le_right _ _)
      _ = dH / ch * ch := Nat.mul_comm _ _
      _ ≤ dH := Nat.div_mul_le_self dH ch
  refine ⟨?_, ?_, ?_, ?_⟩
  · intro cscale ww wh s h
    simp only [computeSize] at h
    by_cases h0 : min (dW / cw) (dH / ch) = 0
    · rw [if_pos h0] at h
      exact absurd h (by simp)
    · rw [if_neg h0] at h
      by_cases hlt : min (dW / cw) (dH / ch)
          < (if cscale ≠ 0 then cscale else min (dW / cw) (dH / ch))
      · rw [if_pos hlt] at h
        simp only [Option.some.injEq, Prod.mk.injEq] at h
        obtain ⟨hww, hwh, _⟩ := h
        exact ⟨hww ▸ hWfit, hwh ▸ hHfit⟩
      · rw [if_neg hlt] at h
        simp only [Option.some.injEq, Prod.mk.injEq] at h
        obtain ⟨hww, hwh, _⟩ := h
        have hle := Nat.not_lt.1 hlt
        constructor
        · calc ww = cw * (if cscale ≠ 0 then cscale else min (dW / cw) (dH / ch)) :=
              hww.symm
            _ ≤ cw * min (dW / cw) (dH / ch) := Nat.mul_le_mul_left cw hle
            _ ≤ dW := hWfit
        · calc wh = ch * (if cscale ≠ 0 then cscale else min (dW / cw) (dH / ch)) :=
              hwh.symm
            _ ≤ ch * min (dW / cw) (dH / ch) := Nat.mul_le_mul_left ch hle
            _ ≤ dH := hHfit
  · intro hW hH
    have hm : 0 < min (dW / cw) (dH / ch) :=
      lt_min_iff.2 ⟨Nat.div_pos hW hcw, Nat.div_pos hH hch⟩
    refine ⟨?_, hWfit, hHfit, ?_⟩
    · simp only [computeSize]
      have hid : (if (0 : Nat) ≠ 0 then (0 : Nat) else min (dW / cw) (dH / ch))
          = min (dW / cw) (dH / ch) := by simp
      rw [hid, if_neg hm.ne', if_neg (lt_irrefl _)]
    · intro s hsW hsH
      refine le_min ?_ ?_
      · exact (Nat.le_div_iff_mul_le hcw).2 (by rwa [Nat.mul_comm] at hsW)
      · exact (Nat.le_div_iff_mul_le hch).2 (by rwa [Nat.mul_comm] at hsH)
  · intro cscale hm hgt
    simp only [computeSize]
    rw [if_pos (by omega : cscale ≠ 0), if_neg hm.ne', if_pos hgt]
  · intro hfail cscale
    have hm : min (dW / cw) (dH / ch) = 0 := by
      rcases hfail with h | h
      · exact Nat.min_eq_zero_iff.2 (Or.inl (Nat.div_eq_of_lt h))
      · exact Nat.min_eq_zero_iff.2 (Or.inr (Nat.div_eq_of_lt h))
    have hnone : computeSize dW dH cw ch cscale = none := by
      simp only [computeSize]
      rw [if_pos hm]
    refine ⟨hnone, ?_⟩
    intro o
    simp only [Display_initialize_model, hnone]
    split_ifs <;> simp_all

/-- Witness for C3 at the spec's own example: canvas 320×180 on a 1920×1080
display with auto scale gives scale 6 and a 1920×1080 window. -/
theorem C3_window_geometry_witness :
    ((0 < 320 ∧ 0 < 180 ∧ 320 ≤ 1920 ∧ 180 ≤ 1080) ∧
      computeSize 1920 1080 320 180 0 = some (1920, 1080, 6)) := by
  refine ⟨by decide, ?_⟩
  have h := ((C3_window_geometry 1920 1080 320 180 (by decide) (by decide)).2.1
    (by decide) (by decide)).1
  simpa using h

/-! ### C4: shader swapping -/

/-- Counterexample to C4 as stated: starting from a state in which a live
custom program is active, requesting a new custom shader whose source fails
to compile does not leave the previously active program usable —
`Display_shader` deletes the active custom program before attempting the
rebuild, so after the failed compile the active slot holds a dead program. -/
theorem C4_custom_active_counterexample :
    exShaderCustom.activeLive = true ∧
    (Display_shader exShaderCustom (some false)).activeLive = false := by
  decide

/-- Claim C4 as amended.  When the pass-through program is active: a failed
custom-shader compile leaves the pass-through program active and untouched
(only a warning is logged), and requesting a null effect is an immediate
no-op (the state, including the create/delete call counters, is returned
unchanged, so no resource is created or deleted).  When a custom program is
active, however, a failed compile deletes it first, leaving the active slot
pointing at a dead program. -/
theorem C4_shader_swap_amended (s : ShaderState) :
    (s.active = ShaderSlot.passthru →
      Display_shader s none = s
      ∧ (Display_shader s (some false)).active = ShaderSlot.passthru
      ∧ (Display_shader s (some false)).passthruLive = s.passthruLive)
    ∧ (s.active = ShaderSlot.custom →
      (Display_shader s (some false)).active = ShaderSlot.custom
      ∧ (Display_shader s (some false)).customLive = false) := by
  constructor
  · intro hp
    refine ⟨?_, ?_, ?_⟩ <;> simp [Display_shader, hp]
  · intro hc
    constructor <;> simp [Display_shader, hc]

/-- Witness for the amended C4 at a concrete pass-through state. -/
theorem C4_shader_swap_amended_witness :
    exShaderPassthru.active = ShaderSlot.passthru ∧
    Display_shader exShaderPassthru none = exShaderPassthru ∧
    (Display_shader exShaderPassthru (some false)).active = ShaderSlot.passthru := by
  have h := (C4_shader_swap_amended exShaderPassthru).1 rfl
  exact ⟨rfl, h.1, h.2.1⟩

/-! ### C5: initialization failure unwinding -/

/-- Claim C5 evaluated at its failing input.  When the true-color conversion
buffer `malloc` fails inside `Display_initialize` (every other step
succeeding, canvas 320×180 on a 1920×1080 display), the C code releases the
GL context, the window and GLFW but — lacking a `return false` in that
branch — falls through and ultimately returns `true` with a display whose
window, GL context and conversion buffer are gone: a partially initialized
display is handed to the caller.  By contrast `Engine_initialize` honours
the claim: e.g. an audio failure unwinds input, display and file system and
returns `false`. -/
theorem C5_display_unwind_eval :
    Display_initialize_model ⟨true, true, true, true, false, true, true⟩
        1920 1080 320 180 0
      = (true, ⟨false, false, false, false, true, true⟩)
    ∧ Engine_initialize_model ⟨true, true, true, false, true⟩
      = (false, ⟨false, false, false, false, false⟩) := by
  decide

/-! ### C6: conversion-buffer length -/

/-- Claim C6 evaluated at its failing input.  The conversion buffer is
allocated at line 283 of core/io/display.c with
`configuration.width * configuration.width` entries; for the 320×180 canvas
that is 102400 entries, not the `width × height = 57600` the claim (and the
adjacent log message, and the converter that fills `width × height` entries)
require. -/
theorem C6_conversion_buffer_size_eval :
    displayVramEntries 320 180 = 102400
    ∧ 320 * 180 = 57600
    ∧ displayVramEntries 320 180 ≠ 320 * 180 := by
  decide

/-! ### C9: horizontal and vertical line runs -/

/-- Claim C9 evaluated.  The horizontal part holds on the code: `hline` at
origin `(0, 1)` of the 4-wide `exContext` with width 3 writes the resolved
color to flat addresses 4, 5 and 6 (row 1, columns 0-2) and leaves address 7
unchanged.  The vertical part fails: `vline` at origin `(0, 0)` of the 1-wide
`exTallContext` with height 2 recomputes its destination pointer inside the
loop, so it writes the origin cell (address 0) twice and leaves the cell of
row 1 (address 1) unchanged, instead of drawing a vertical run. -/
theorem C9_hline_vline_eval :
    (GL_primitive_hline exContext ⟨0, 1⟩ 3 2).vram 4 = ⟨2, 0, 0, 0⟩
    ∧ (GL_primitive_hline exContext ⟨0, 1⟩ 3 2).vram 5 = ⟨2, 0, 0, 0⟩
    ∧ (GL_primitive_hline exContext ⟨0, 1⟩ 3 2).vram 6 = ⟨2, 0, 0, 0⟩
    ∧ (GL_primitive_hline exContext ⟨0, 1⟩ 3 2).vram 7 = ⟨9, 9, 9, 9⟩
    ∧ (GL_primitive_vline exTallContext ⟨0, 0⟩ 2 3).vram 0 = ⟨3, 0, 0, 0⟩
    ∧ (GL_primitive_vline exTallContext ⟨0, 0⟩ 2 3).vram 1 = ⟨9, 9, 9, 9⟩
    ∧ (⟨9, 9, 9, 9⟩ : GL_Color) ≠ (⟨3, 0, 0, 0⟩ : GL_Color) := by
  decide

end Zest
